import Mathlib

/-!
Shallow embedding of the `drift_detector` core of schema-monitor
(`src/drift_detector/core/reference_expectations.py` and
`src/drift_detector/core/validator.py`), together with theorems settling the
frozen claims about it.

Numbers are modelled as rationals; the floating-point values the code actually
produces are all exact in ℚ except where NaN arises, which the `PyFloat` type
carries explicitly.
-/

/-- PyFloat models a Python/NumPy double restricted to the values this code
produces: a rational number or NaN.  NaN propagates through arithmetic and
every ordered comparison with NaN is false (IEEE 754 semantics, which Python
follows). -/
inductive PyFloat where
  | val (q : ℚ)
  | nan
deriving DecidableEq

namespace PyFloat

def add : PyFloat → PyFloat → PyFloat
  | val a, val b => val (a + b)
  | _, _ => nan

def sub : PyFloat → PyFloat → PyFloat
  | val a, val b => val (a - b)
  | _, _ => nan

/-- IEEE strict less-than: false whenever either side is NaN. -/
def lt : PyFloat → PyFloat → Bool
  | val a, val b => decide (a < b)
  | _, _ => false

/-- IEEE less-or-equal: false whenever either side is NaN. -/
def le : PyFloat → PyFloat → Bool
  | val a, val b => decide (a ≤ b)
  | _, _ => false

/-- Python builtin `max(a, b)`: starts from the first argument and replaces it
by the second exactly when the second compares strictly greater, so
`max(0.0, nan)` is `0.0`. -/
def pymax (a b : PyFloat) : PyFloat := if lt a b then b else a

/-- Python builtin `min(a, b)`: starts from the first argument and replaces it
by the second exactly when the second compares strictly smaller, so
`min(1.0, nan)` is `1.0`. -/
def pymin (a b : PyFloat) : PyFloat := if lt b a then b else a

end PyFloat

/-- The pandas column dtypes occurring in this development. -/
inductive Dtype where
  | int64
  | float64
  | obj
deriving DecidableEq

/-- The canonical NumPy name of a dtype, as `str(series.dtype)` renders it. -/
def Dtype.name : Dtype → String
  | .int64 => "int64"
  | .float64 => "float64"
  | .obj => "object"

/-- NumPy dtype construction `np.dtype(s)` on strings, as used when a dtype is
compared against a string.  The string `"number"` names the abstract kind
`np.number`, not a concrete dtype, so it does not parse to any dtype. -/
def parseDtype : String → Option Dtype
  | "int64" => some Dtype.int64
  | "float64" => some Dtype.float64
  | "object" => some Dtype.obj
  | _ => none

/-- NumPy comparison `series.dtype == s` for a string `s`: the string is
parsed to a dtype and compared; a string that names no concrete dtype compares
unequal to every dtype (NumPy returns False rather than raising).  In
particular `dtype == "number"` is False for every column dtype. -/
def dtypeEqStr (d : Dtype) (s : String) : Bool := parseDtype s == some d

/-- Embeds `pandas.api.types.is_numeric_dtype`. -/
def is_numeric_dtype : Dtype → Bool
  | .int64 => true
  | .float64 => true
  | .obj => false

/-- A cell value: a number or a string.  A missing cell (None/NaN in pandas)
is `Option.none` at the column level. -/
inductive Value where
  | num (q : ℚ)
  | str (s : String)
deriving DecidableEq

/-- The numeric content of a value, used when pandas treats a series
numerically. -/
def Value.asNum : Value → Option ℚ
  | .num q => some q
  | .str _ => none

/-- One named, typed pandas column: its sequence of cells, `none` being a
missing value. -/
@[ext]
structure Column where
  name : String
  dtype : Dtype
  values : List (Option Value)
deriving DecidableEq

/-- A pandas DataFrame: the ordered list of its named, typed columns. -/
abbrev DataFrame := List Column

/-- Embeds `len(df)`: the number of rows. -/
def rowCount : DataFrame → ℕ
  | [] => 0
  | c :: _ => c.values.length

/-- A well-formed frame, as pandas guarantees by construction: column names
are distinct and every column has exactly `rowCount` cells. -/
abbrev Wf (df : DataFrame) : Prop :=
  (df.map Column.name).Nodup ∧ ∀ c ∈ df, c.values.length = rowCount df

/-- Embeds `set(df.columns)`. -/
def columnSet (df : DataFrame) : Finset String := (df.map Column.name).toFinset

/-- Embeds `df[name]`: the first column carrying the name. -/
def getCol (df : DataFrame) (name : String) : Option Column :=
  df.find? (fun c => c.name == name)

/-- Embeds `series.isnull().sum()`: the number of missing cells. -/
def nullCount (c : Column) : ℕ := c.values.countP (fun v => v.isNone)

/-- The number of non-missing cells of a column. -/
def nonNullCount (c : Column) : ℕ := c.values.length - nullCount c

/-- The non-missing values of a column, in order. -/
def nonNullValues (c : Column) : List Value := c.values.filterMap id

/-- The numeric view of a column, as pandas takes it for `mean`/`std`:
missing cells stay missing. -/
def Column.qvals (c : Column) : List (Option ℚ) :=
  c.values.map (fun v => v.bind Value.asNum)

/-- The tagged expectation objects the builder appends, one constructor per
`great_expectations` class the source instantiates. -/
inductive Expectation where
  | columnsToMatchSet (column_set : Finset String)
  | valuesToBeOfType (column : String) ( type_ : String)
  | proportionNonNullBetween (column : String) (min_value max_value : PyFloat)
  | klDivergenceLessThan (column : String) (partition_object : List (Value × ℚ))
      (threshold : ℚ)
  | meanBetween (column : String) (min_value max_value : PyFloat)
  | stdevBetween (column : String) (min_value max_value : PyFloat)
  | matchLikePattern (column : String) (pattern : String)
deriving DecidableEq

/-- Embeds `ReferenceExpectationBuilder.get_range`:
`max(0.0, base - tolerance), min(1.0, base + tolerance)` — note both ends are
clamped into [0, 1]. -/
def get_range (base tolerance : PyFloat) : PyFloat × PyFloat :=
  (PyFloat.pymax (.val 0) (base.sub tolerance), PyFloat.pymin (.val 1) (base.add tolerance))

/-- Embeds `add_column_changes`: one table-columns-match-set expectation. -/
def add_column_changes (df : DataFrame) : List Expectation :=
  [.columnsToMatchSet (columnSet df)]

/-- Embeds `add_column_type_changes`: one type expectation per reference
column, holding `str(dtype)`. -/
def add_column_type_changes (df : DataFrame) : List Expectation :=
  df.map (fun c => .valuesToBeOfType c.name c.dtype.name)

/-- Embeds the local computation
`1 - (self.reference_df[column].isnull().sum() / len(self.reference_df))` of
`add_null_value_drifts`.  The null count is a NumPy integer, so on a frame
with zero rows the division is NumPy 0/0, which yields NaN with a runtime
warning — it does not raise. -/
def reference_non_null_proportion (df : DataFrame) (c : Column) : PyFloat :=
  if rowCount df = 0 then .nan
  else .val (1 - (nullCount c : ℚ) / (rowCount df : ℚ))

/-- Embeds `add_null_value_drifts`: one proportion-of-non-null expectation per
reference column, with bounds from `get_range`. -/
def add_null_value_drifts (df : DataFrame) (tolerance : ℚ) : List Expectation :=
  df.map (fun c =>
    .proportionNonNullBetween c.name
      (get_range (reference_non_null_proportion df c) (.val tolerance)).1
      (get_range (reference_non_null_proportion df c) (.val tolerance)).2)

/-- Distinct elements of a list, keeping first occurrences in order. -/
def distinctFirst : List Value → List Value
  | [] => []
  | a :: l => a :: distinctFirst (l.filter (fun b => b ≠ a))
termination_by l => l.length
decreasing_by
  simpa using Nat.lt_succ_of_le (List.length_filter_le _ _)

/-- Embeds `series.value_counts(normalize=True).to_dict()`: the relative
frequency of each distinct non-missing value.  (pandas orders the dict by
descending count; the claims use it only as a finite map, so first-occurrence
order stands in for that ordering.) -/
def value_counts (c : Column) : List (Value × ℚ) :=
  (distinctFirst (nonNullValues c)).map
    (fun k => (k, ((nonNullValues c).count k : ℚ) / ((nonNullValues c).length : ℚ)))

/-- Embeds `add_categorical_distribution_drifts`: one KL-divergence
expectation per column of numeric dtype, none for other columns. -/
def add_categorical_distribution_drifts : DataFrame → ℚ → List Expectation
  | [], _ => []
  | c :: rest, threshold =>
    if is_numeric_dtype c.dtype then
      .klDivergenceLessThan c.name (value_counts c) threshold
        :: add_categorical_distribution_drifts rest threshold
    else
      add_categorical_distribution_drifts rest threshold

/-- Embeds `series.mean()` (pandas default `skipna=True`): the mean of the
non-missing values, NaN when there are none. -/
def seriesMean (xs : List (Option ℚ)) : PyFloat :=
  if (xs.filterMap id).length = 0 then .nan
  else .val ((xs.filterMap id).sum / ((xs.filterMap id).length : ℚ))

/-- Embeds the variance underlying `series.std()`: pandas defaults to
`ddof = 1` (sample variance), so a series with fewer than two non-missing
values gives NaN. -/
def seriesVar (xs : List (Option ℚ)) : PyFloat :=
  if (xs.filterMap id).length ≤ 1 then .nan
  else
    .val (((xs.filterMap id).map
        (fun x => (x - (xs.filterMap id).sum / ((xs.filterMap id).length : ℚ)) ^ 2)).sum
      / (((xs.filterMap id).length : ℚ) - 1))

/-- Embeds `series.std()` = square root of `seriesVar`.  `Rat.sqrt` agrees
with the real square root at every perfect-square rational, and every value
this development evaluates `seriesStd` at has variance 0 or NaN. -/
def seriesStd (xs : List (Option ℚ)) : PyFloat :=
  match seriesVar xs with
  | .nan => .nan
  | .val q => .val (Rat.sqrt q)

/-- Modelled from the spec: the population standard deviation (`ddof = 0`)
that the spec asserts the reference computation uses — stated here only to be
compared against `seriesStd`, the one the source actually computes. -/
def populationStd (xs : List (Option ℚ)) : PyFloat :=
  if (xs.filterMap id).length = 0 then .nan
  else
    .val (Rat.sqrt (((xs.filterMap id).map
        (fun x => (x - (xs.filterMap id).sum / ((xs.filterMap id).length : ℚ)) ^ 2)).sum
      / ((xs.filterMap id).length : ℚ)))

/-- Embeds `add_numerical_distribution_drifts`.  The guard is the source line
`if self.reference_df[column].dtype == 'number':`; since `"number"` is not a
concrete NumPy dtype the comparison is False for every column (see
`dtypeEqStr`), so the branch below never runs. -/
def add_numerical_distribution_drifts : DataFrame → ℚ → List Expectation
  | [], _ => []
  | c :: rest, threshold =>
    if dtypeEqStr c.dtype "number" then
      .meanBetween c.name
          (get_range (seriesMean c.qvals) (.val threshold)).1
          (get_range (seriesMean c.qvals) (.val threshold)).2
        :: .stdevBetween c.name
          (get_range (seriesStd c.qvals) (.val threshold)).1
          (get_range (seriesStd c.qvals) (.val threshold)).2
        :: add_numerical_distribution_drifts rest threshold
    else
      add_numerical_distribution_drifts rest threshold

/-- Embeds `add_string_pattern_drift`: raises (here: `Except.error` with the
message the source formats) when the named column is absent from the
reference frame, leaving the builder expectation list `expectations`
untouched; otherwise appends exactly one like-pattern expectation. -/
def add_string_pattern_drift (df : DataFrame) (expectations : List Expectation)
    (column pattern : String) : Except String (List Expectation) :=
  if column ∉ df.map Column.name then
    .error ("No matching column named: `" ++ column ++ "`")
  else
    .ok (expectations ++ [.matchLikePattern column pattern])

/-- Embeds the suite `run_validation` assembles from the reference frame:
`add_column_changes`, `add_column_type_changes`, `add_null_value_drifts` with
its default tolerance 0.1 and `add_numerical_distribution_drifts` with its
default threshold 0.1, in that order. -/
def buildExpectations (reference_df : DataFrame) : List Expectation :=
  add_column_changes reference_df
    ++ add_column_type_changes reference_df
    ++ add_null_value_drifts reference_df (1/10)
    ++ add_numerical_distribution_drifts reference_df (1/10)

/-- The non-null proportion of a target column as the evaluation observes it;
per the spec (§4.3) a zero-row column has ratio 1.0. -/
def colNonNullRatio (c : Column) : ℚ :=
  if c.values.length = 0 then 1
  else (nonNullCount c : ℚ) / (c.values.length : ℚ)

/-- Modelled from the spec: the evaluation `batch.validate(suite)` performs
happens inside the great_expectations library, outside the sources of this
repository; spec §4.3 gives its semantics.  For the kinds the pipeline emits:
a columns-match-set expectation succeeds iff the target column set equals the
expected set; a type expectation succeeds iff the target column exists and
its dtype string equals the expected string (absent column fails); a
proportion-of-non-null expectation succeeds iff the observed ratio lies in
`[min, max]` inclusive (absent column fails; comparisons against NaN bounds
are IEEE, hence false).  KL-divergence, mean, stdev and like-pattern
expectations are never emitted by `run_validation` (the numerical branch is
dead and the categorical/pattern builders are never called), and their
observables would need real logarithms, real square roots and the library
pattern engine, so they are left unmodelled (`none`). -/
def evalExpectation (target : DataFrame) : Expectation → Option Bool
  | .columnsToMatchSet s => some (decide (columnSet target = s))
  | .valuesToBeOfType col t =>
      match getCol target col with
      | some c => some (c.dtype.name == t)
      | none => some false
  | .proportionNonNullBetween col mn mx =>
      match getCol target col with
      | some c =>
          some (mn.le (.val (colNonNullRatio c)) && (PyFloat.val (colNonNullRatio c)).le mx)
      | none => some false
  | .klDivergenceLessThan _ _ _ => none
  | .meanBetween _ _ _ => none
  | .stdevBetween _ _ _ => none
  | .matchLikePattern _ _ => none

/-- The validation result: one entry per expectation in definition order, and
the overall success flag (the conjunction of the per-expectation successes). -/
structure Report where
  results : List (Expectation × Option Bool)
  success : Bool

/-- Embeds `run_validation`: build the suite from the reference frame, then
evaluate every expectation against the target frame. -/
def run_validation (reference_df target_df : DataFrame) : Report :=
  let rs := (buildExpectations reference_df).map
    (fun e => (e, evalExpectation target_df e))
  ⟨rs, rs.all (fun r => r.2 == some true)⟩

/-- Clamping into the unit interval, as the spec words it. -/
def clamp01 (x : ℚ) : ℚ := max 0 (min 1 x)

/-- The reference frame of the unit-test fixture `sample_df` in
`tests/core/test_reference_expectations.py` (column `category`, 1 null of 6). -/
def sampleCategoryColumn : Column :=
  ⟨"category", Dtype.obj,
    [some (.str "A"), some (.str "A"), some (.str "B"), some (.str "B"),
     some (.str "C"), none]⟩

/-- The `value` column of the same fixture: mean 121/6 ≈ 20.17. -/
def sampleValueColumn : Column :=
  ⟨"value", Dtype.float64,
    [some (.num 10), some (.num (51/5)), some (.num 20), some (.num (203/10)),
     some (.num 30), some (.num (61/2))]⟩

/-- The full unit-test fixture `sample_df`. -/
def sampleDf : DataFrame :=
  [⟨"id", Dtype.int64,
      [some (.num 1), some (.num 2), some (.num 3), some (.num 4),
       some (.num 5), some (.num 6)]⟩,
   sampleCategoryColumn,
   sampleValueColumn,
   ⟨"all_null", Dtype.obj, [none, none, none, none, none, none]⟩]

/-- A one-column frame with zero rows. -/
def emptyIdDf : DataFrame := [⟨"id", Dtype.int64, []⟩]

/-- A two-column frame with zero rows. -/
def emptyPairDf : DataFrame := [⟨"id", Dtype.int64, []⟩, ⟨"name", Dtype.obj, []⟩]

/-- A small non-degenerate frame used by witnesses. -/
def witDf : DataFrame :=
  [⟨"id", Dtype.int64, [some (.num 1), some (.num 2), some (.num 3)]⟩,
   ⟨"name", Dtype.obj, [some (.str "A"), none, some (.str "B")]⟩]

/-- A one-numeric-column reference frame for the pipeline rule-set claims. -/
def c10Df : DataFrame :=
  [⟨"id", Dtype.int64, [some (.num 1), some (.num 2), some (.num 3)]⟩]

/-! ### Helper lemmas -/

@[simp]
theorem PyFloat.val_sub (a b : ℚ) : (PyFloat.val a).sub (.val b) = .val (a - b) := rfl

@[simp]
theorem PyFloat.val_add (a b : ℚ) : (PyFloat.val a).add (.val b) = .val (a + b) := rfl

@[simp]
theorem PyFloat.val_lt (a b : ℚ) : (PyFloat.val a).lt (.val b) = decide (a < b) := rfl

@[simp]
theorem PyFloat.val_le (a b : ℚ) : (PyFloat.val a).le (.val b) = decide (a ≤ b) := rfl

@[simp]
theorem PyFloat.lt_nan (a : PyFloat) : a.lt .nan = false := by
  cases a <;> rfl

@[simp]
theorem PyFloat.nan_lt (a : PyFloat) : PyFloat.nan.lt a = false := by
  cases a <;> rfl

/-- The guard `dtype == 'number'` never holds, so
`add_numerical_distribution_drifts` contributes no expectation at all. -/
theorem add_numerical_distribution_drifts_eq_nil (df : DataFrame) (t : ℚ) :
    add_numerical_distribution_drifts df t = [] := by
  induction df with
  | nil => rfl
  | cons c rest ih =>
    have hguard : dtypeEqStr c.dtype "number" = false := rfl
    simp [add_numerical_distribution_drifts, hguard, ih]

/-- On a frame with distinct column names, looking a member column up by its
own name finds it. -/
theorem getCol_self : ∀ (df : DataFrame), (df.map Column.name).Nodup →
    ∀ c : Column, c ∈ df → getCol df c.name = some c := by
  intro df
  induction df with
  | nil =>
    intro _ c hc
    cases hc
  | cons a rest ih =>
    intro hnd c hc
    rw [List.map_cons, List.nodup_cons] at hnd
    rcases List.mem_cons.mp hc with rfl | hmem
    · unfold getCol
      rw [List.find?_cons_of_pos _ (by simp)]
    · have hne : (a.name == c.name) = false := by
        rw [beq_eq_false_iff_ne]
        intro h
        exact hnd.1 (h ▸ List.mem_map_of_mem Column.name hmem)
      unfold getCol
      rw [List.find?_cons_of_neg _ (by simp [hne])]
      exact ih hnd.2 c hmem

/-- `get_range` on rational inputs, as an explicit case split. -/
theorem get_range_val (p t : ℚ) :
    get_range (.val p) (.val t)
      = (if 0 < p - t then .val (p - t) else .val 0,
         if p + t < 1 then .val (p + t) else .val 1) := by
  unfold get_range PyFloat.pymax PyFloat.pymin
  simp

/-- `get_range` on a NaN base: the NaN propagates into both Python `max` and
`min`, which keep their first arguments, giving the bounds [0, 1]. -/
theorem get_range_nan (t : PyFloat) : get_range .nan t = (.val 0, .val 1) := by
  cases t <;> rfl

/-- Any `x` in the tolerance band around `p` and inside [0, 1] lies between
the clamped bounds `get_range` produces. -/
theorem bounds_ok {p t x : ℚ} (hx0 : 0 ≤ x) (hx1 : x ≤ 1)
    (hlo : p - t ≤ x) (hhi : x ≤ p + t) :
    (get_range (.val p) (.val t)).1.le (.val x) = true
      ∧ (PyFloat.val x).le (get_range (.val p) (.val t)).2 = true := by
  rw [get_range_val]
  constructor
  · dsimp only
    split_ifs with h
    · simpa using hlo
    · simpa using hx0
  · dsimp only
    split_ifs with h
    · simpa using hhi
    · simpa using hx1

/-- Every expectation the pipeline derives from a well-formed frame succeeds
when evaluated against that same frame. -/
theorem eval_buildExpectations_self (df : DataFrame) (hw : Wf df) :
    ∀ e ∈ buildExpectations df, evalExpectation df e = some true := by
  intro e he
  unfold buildExpectations at he
  rw [add_numerical_distribution_drifts_eq_nil, List.append_nil] at he
  rcases List.mem_append.mp he with he1 | he2
  · rcases List.mem_append.mp he1 with h1 | h2
    · simp only [add_column_changes, List.mem_singleton] at h1
      subst h1
      simp [evalExpectation]
    · rcases List.mem_map.mp h2 with ⟨c, hc, rfl⟩
      simp [evalExpectation, getCol_self df hw.1 c hc]
  · rcases List.mem_map.mp he2 with ⟨c, hc, rfl⟩
    have hgc := getCol_self df hw.1 c hc
    have hn_le : nullCount c ≤ c.values.length := List.countP_le_length _
    by_cases h0 : rowCount df = 0
    · have hL : c.values.length = 0 := by rw [hw.2 c hc, h0]
      have hprop : reference_non_null_proportion df c = .nan := by
        unfold reference_non_null_proportion
        rw [if_pos h0]
      have hratio : colNonNullRatio c = 1 := by
        unfold colNonNullRatio
        rw [if_pos hL]
      simp [evalExpectation, hgc, hprop, get_range_nan, hratio]
    · have hL : c.values.length = rowCount df := hw.2 c hc
      have hRne : ((rowCount df : ℚ)) ≠ 0 := Nat.cast_ne_zero.mpr h0
      have hRpos : (0 : ℚ) < (rowCount df : ℚ) := by
        have := Nat.pos_of_ne_zero h0
        exact_mod_cast this
      have hprop : reference_non_null_proportion df c
          = .val (1 - (nullCount c : ℚ) / (rowCount df : ℚ)) := by
        unfold reference_non_null_proportion
        rw [if_neg h0]
      have hratio : colNonNullRatio c
          = 1 - (nullCount c : ℚ) / (rowCount df : ℚ) := by
        unfold colNonNullRatio
        rw [if_neg (by omega : ¬ c.values.length = 0)]
        unfold nonNullCount
        rw [Nat.cast_sub hn_le, hL]
        field_simp
      have hdiv0 : (0 : ℚ) ≤ (nullCount c : ℚ) / (rowCount df : ℚ) := by positivity
      have hdiv1 : (nullCount c : ℚ) / (rowCount df : ℚ) ≤ 1 := by
        rw [div_le_one hRpos]
        have : (nullCount c : ℚ) ≤ (c.values.length : ℚ) := by exact_mod_cast hn_le
        rw [hL] at this
        exact this
      have hb := bounds_ok (p := 1 - (nullCount c : ℚ) / (rowCount df : ℚ))
        (t := 1/10) (x := 1 - (nullCount c : ℚ) / (rowCount df : ℚ))
        (by linarith) (by linarith) (by linarith) (by linarith)
      have hb10 := hb
      rw [show (1 : ℚ)/10 = (10 : ℚ)⁻¹ by norm_num] at hb10
      simp [evalExpectation, hgc, hprop, hratio, hb.1, hb.2, hb10.1, hb10.2]

/-- Self-validation of any well-formed frame succeeds. -/
theorem self_validation_success (df : DataFrame) (hw : Wf df) :
    (run_validation df df).success = true := by
  unfold run_validation
  dsimp only
  rw [List.all_eq_true]
  rintro r hr
  rcases List.mem_map.mp hr with ⟨e, he, rfl⟩
  have h := eval_buildExpectations_self df hw e he
  simp [h]

/-- In a well-formed frame with zero rows, every column has no cells. -/
theorem values_nil_of_zero_rows (df : DataFrame) (hw : Wf df) (h0 : rowCount df = 0) :
    ∀ c ∈ df, c.values = [] := by
  intro c hc
  have h := hw.2 c hc
  rw [h0] at h
  exact List.eq_nil_of_length_eq_zero h

/-- Two frames with the same column names, the same dtypes and no cells at
all are equal. -/
theorem frames_eq_of_empty : ∀ (ref tgt : DataFrame),
    ref.map Column.name = tgt.map Column.name →
    ref.map Column.dtype = tgt.map Column.dtype →
    (∀ c ∈ ref, c.values = []) → (∀ c ∈ tgt, c.values = []) → ref = tgt := by
  intro ref
  induction ref with
  | nil =>
    intro tgt hn _ _ _
    cases tgt with
    | nil => rfl
    | cons b l => exact absurd hn (by simp)
  | cons a rest ih =>
    intro tgt hn hd h1 h2
    cases tgt with
    | nil => exact absurd hn (by simp)
    | cons b l =>
      rw [List.map_cons, List.map_cons] at hn hd
      injection hn with hn1 hn2
      injection hd with hd1 hd2
      have ha : a = b :=
        Column.ext hn1 hd1
          ((h1 a (List.mem_cons_self a rest)).trans (h2 b (List.mem_cons_self b l)).symm)
      rw [ha]
      congr 1
      exact ih l hn2 hd2 (fun c hc => h1 c (List.mem_cons_of_mem _ hc))
        (fun c hc => h2 c (List.mem_cons_of_mem _ hc))

/-- C3: running the full pipeline with the same non-degenerate (well-formed,
at least one row) Dataset as both reference and target yields a Report with
success = true: the column-set, column-type and non-null-ratio expectations
all pass on the frame they were derived from, and the numerical branch emits
nothing. -/
theorem C3_self_validation (df : DataFrame) (hw : Wf df) (hrows : 0 < rowCount df) :
    (run_validation df df).success = true :=
  self_validation_success df hw

/-- Witness for C3 at a concrete two-column, three-row frame. -/
theorem C3_self_validation_witness : (run_validation witDf witDf).success = true :=
  C3_self_validation witDf (by decide) (by decide)

/-- C9: when reference and target are well-formed frames that both have zero
rows and identical column names and dtypes, `run_validation` returns a Report
with success = true. -/
theorem C9_empty_validation (ref tgt : DataFrame) (hwr : Wf ref) (hwt : Wf tgt)
    (h0r : rowCount ref = 0) (h0t : rowCount tgt = 0)
    (hn : ref.map Column.name = tgt.map Column.name)
    (hd : ref.map Column.dtype = tgt.map Column.dtype) :
    (run_validation ref tgt).success = true := by
  have heq : ref = tgt :=
    frames_eq_of_empty ref tgt hn hd
      (values_nil_of_zero_rows ref hwr h0r) (values_nil_of_zero_rows tgt hwt h0t)
  subst heq
  exact self_validation_success ref hwr

/-- Witness for C9 at a concrete two-column, zero-row frame. -/
theorem C9_empty_validation_witness :
    (run_validation emptyPairDf emptyPairDf).success = true :=
  C9_empty_validation emptyPairDf emptyPairDf (by decide) (by decide)
    (by decide) (by decide) rfl rfl

/-- C4 counterexample: on a reference frame with zero rows, the computed
non-null proportion is NaN (NumPy 0/0), not the value 1.0 the claim states. -/
theorem C4_zero_rows_counterexample :
    reference_non_null_proportion emptyIdDf ⟨"id", Dtype.int64, []⟩ = .nan
      ∧ PyFloat.nan ≠ PyFloat.val 1 := by
  decide

/-- C4 (amended): for a column of a well-formed reference frame the computed
non-null proportion equals count(non-missing)/row_count whenever the frame has
at least one row; at zero rows the computation yields NaN rather than 1.0 — no
exception is raised, and `get_range` then turns the NaN into the vacuous
bounds [0, 1]. -/
theorem C4_non_null_ratio (df : DataFrame) (c : Column) (hw : Wf df) (hc : c ∈ df) :
    (0 < rowCount df →
      reference_non_null_proportion df c
        = .val ((nonNullCount c : ℚ) / (rowCount df : ℚ)))
      ∧ (rowCount df = 0 →
        reference_non_null_proportion df c = .nan
          ∧ get_range (reference_non_null_proportion df c) (.val (1/10))
              = (.val 0, .val 1)) := by
  constructor
  · intro h0
    have hL : c.values.length = rowCount df := hw.2 c hc
    have hn_le : nullCount c ≤ c.values.length := List.countP_le_length _
    have hRne : ((rowCount df : ℚ)) ≠ 0 := Nat.cast_ne_zero.mpr (by omega)
    unfold reference_non_null_proportion
    rw [if_neg (by omega)]
    congr 1
    unfold nonNullCount
    rw [Nat.cast_sub hn_le, hL]
    field_simp
  · intro h0
    have hprop : reference_non_null_proportion df c = .nan := by
      unfold reference_non_null_proportion
      rw [if_pos h0]
    exact ⟨hprop, by rw [hprop, get_range_nan]⟩

/-- Witness for C4 (amended): the fixture category column (5 of 6 cells
present) gives 5/6, and a zero-row frame gives NaN. -/
theorem C4_non_null_ratio_witness :
    reference_non_null_proportion sampleDf sampleCategoryColumn
        = .val ((nonNullCount sampleCategoryColumn : ℚ) / (rowCount sampleDf : ℚ))
      ∧ reference_non_null_proportion emptyIdDf ⟨"id", Dtype.int64, []⟩ = .nan :=
  ⟨(C4_non_null_ratio sampleDf sampleCategoryColumn (by decide) (by decide)).1
      (by decide),
   ((C4_non_null_ratio emptyIdDf ⟨"id", Dtype.int64, []⟩ (by decide) (by decide)).2
      rfl).1⟩

/-- Filtering the missing cells out of a constant all-present series keeps the
constant series. -/
theorem filterMap_id_replicate_some (n : ℕ) (x : ℚ) :
    (List.replicate n (some x)).filterMap id = List.replicate n x := by
  induction n with
  | zero => rfl
  | succ k ih => simp [List.replicate_succ, ih]

/-- The population standard deviation of any single-valued series is 0. -/
theorem populationStd_singleton (x : ℚ) : populationStd [some x] = .val 0 := by
  unfold populationStd
  rw [show ([some x] : List (Option ℚ)).filterMap id = [x] from rfl]
  rw [if_neg (by norm_num)]
  have h : (([x] : List ℚ).map
        (fun y => (y - ([x] : List ℚ).sum / (([x] : List ℚ).length : ℚ)) ^ 2)).sum
      / (([x] : List ℚ).length : ℚ) = 0 := by
    simp
  rw [h]
  norm_num [show Rat.sqrt 0 = 0 from by decide]

/-- C5 counterexample: for the single-valued column [5] the standard
deviation the code computes (`series.std()`, pandas default ddof = 1) is NaN,
whereas the population standard deviation of [5] — which the claim says is
used and says equals 0.0 — is 0. -/
theorem C5_single_value_counterexample :
    seriesStd [some (5 : ℚ)] = .nan
      ∧ populationStd [some (5 : ℚ)] = .val 0
      ∧ PyFloat.nan ≠ PyFloat.val 0 :=
  ⟨rfl, populationStd_singleton 5, by decide⟩

/-- C5 (amended): the standard deviation parameterizing the std expectation
is the sample standard deviation (pandas ddof = 1): a single-valued column
yields NaN rather than 0.0 (still no exception), a zero-variance column with
at least two rows yields 0.0, and the underlying variance of a two-value
column [a, b] is (a-b)²/2 — the sample formula, where the population formula
would give (a-b)²/4. -/
theorem C5_sample_std (x a b : ℚ) (n : ℕ) (hn : 2 ≤ n) :
    seriesStd [some x] = .nan
      ∧ seriesStd (List.replicate n (some x)) = .val 0
      ∧ seriesVar [some a, some b] = .val ((a - b) ^ 2 / 2) := by
  refine ⟨rfl, ?_, ?_⟩
  · have hvar : seriesVar (List.replicate n (some x)) = .val 0 := by
      unfold seriesVar
      rw [filterMap_id_replicate_some]
      rw [if_neg (by simp; omega)]
      congr 1
      have hne : (n : ℚ) ≠ 0 := Nat.cast_ne_zero.mpr (by omega)
      have hmean : (List.replicate n x).sum / ((List.replicate n x).length : ℚ) = x := by
        rw [List.sum_replicate, List.length_replicate, nsmul_eq_mul]
        field_simp
      rw [List.map_replicate, hmean, sub_self]
      rw [zero_pow (by norm_num), List.sum_replicate, smul_zero, zero_div]
    unfold seriesStd
    rw [hvar]
    have hs : Rat.sqrt 0 = 0 := by decide
    simp [hs]
  · unfold seriesVar
    rw [show ([some a, some b] : List (Option ℚ)).filterMap id = [a, b] from rfl]
    rw [if_neg (by norm_num)]
    congr 1
    simp only [List.sum_cons, List.sum_nil, List.map_cons, List.map_nil,
      List.length_cons, List.length_nil]
    push_cast
    ring_nf

/-- Witness for C5 (amended) at x = 5, n = 3, a = 1, b = 3. -/
theorem C5_sample_std_witness :
    seriesStd [some (5 : ℚ)] = .nan
      ∧ seriesStd (List.replicate 3 (some (5 : ℚ))) = .val 0
      ∧ seriesVar [some (1 : ℚ), some (3 : ℚ)] = .val (((1 : ℚ) - 3) ^ 2 / 2) :=
  C5_sample_std 5 1 3 3 (by norm_num)

/-- C6: `add_string_pattern_drift` fails (with the formatted message) exactly
when the named column is not among the reference columns, leaving the
expectation list unchanged; otherwise it returns the list with exactly one
like-pattern expectation for that column and pattern appended. -/
theorem C6_pattern_rule (df : DataFrame) (es : List Expectation)
    (column pattern : String) :
    (column ∉ df.map Column.name →
        add_string_pattern_drift df es column pattern
          = .error ("No matching column named: `" ++ column ++ "`"))
      ∧ (column ∈ df.map Column.name →
        add_string_pattern_drift df es column pattern
          = .ok (es ++ [.matchLikePattern column pattern])) := by
  constructor
  · intro h
    simp [add_string_pattern_drift, h]
  · intro h
    simp [add_string_pattern_drift, h]

/-- Witness for C6: on the three-row fixture, a present column appends one
rule and an absent column errors with the list untouched. -/
theorem C6_pattern_rule_witness :
    add_string_pattern_drift witDf [] "name" "A|B"
        = .ok [.matchLikePattern "name" "A|B"]
      ∧ add_string_pattern_drift witDf [] "missing_col" "A|B"
          = .error ("No matching column named: `" ++ "missing_col" ++ "`") :=
  ⟨(C6_pattern_rule witDf [] "name" "A|B").2 (by decide),
   (C6_pattern_rule witDf [] "missing_col" "A|B").1 (by decide)⟩

/-- C7: for a reference ratio in [0, 1] and a nonnegative tolerance,
`get_range` produces exactly the clamped bounds
[clamp(ratio - tolerance, 0, 1), clamp(ratio + tolerance, 0, 1)]; in
particular ratio 0.0 with tolerance 0.1 gives [0.0, 0.1] and ratio 1.0 gives
[0.9, 1.0]. -/
theorem C7_clamped_bounds (r t : ℚ) (h0 : 0 ≤ r) (h1 : r ≤ 1) (ht : 0 ≤ t) :
    get_range (.val r) (.val t) = (.val (clamp01 (r - t)), .val (clamp01 (r + t)))
      ∧ get_range (.val 0) (.val (1/10)) = (.val 0, .val (1/10))
      ∧ get_range (.val 1) (.val (1/10)) = (.val (9/10), .val 1) := by
  refine ⟨?_, by rw [get_range_val]; norm_num, by rw [get_range_val]; norm_num⟩
  rw [get_range_val]
  have hsub : clamp01 (r - t) = if 0 < r - t then r - t else 0 := by
    unfold clamp01
    split_ifs with h
    · rw [min_eq_right (by linarith), max_eq_right (by linarith)]
    · rw [min_eq_right (by linarith), max_eq_left (by linarith)]
  have hadd : clamp01 (r + t) = if r + t < 1 then r + t else 1 := by
    unfold clamp01
    split_ifs with h
    · rw [min_eq_right (by linarith), max_eq_right (by linarith)]
    · rw [min_eq_left (by linarith), max_eq_right (by linarith)]
  rw [hsub, hadd, apply_ite PyFloat.val, apply_ite PyFloat.val]

/-- Witness for C7 at ratio 0, tolerance 1/10. -/
theorem C7_clamped_bounds_witness :
    get_range (.val 0) (.val (1/10))
        = (.val (clamp01 (0 - 1/10)), .val (clamp01 (0 + 1/10)))
      ∧ get_range (.val 0) (.val (1/10)) = (.val 0, .val (1/10))
      ∧ get_range (.val 1) (.val (1/10)) = (.val (9/10), .val 1) :=
  C7_clamped_bounds 0 (1/10) (by norm_num) (by norm_num) (by norm_num)

/-- C8: `add_categorical_distribution_drifts` appends exactly one
KL-divergence expectation, carrying the normalized value-frequency map and
the given threshold, for each reference column of numeric dtype, in column
order, and none for any non-numeric column. -/
theorem C8_divergence_rules (df : DataFrame) (threshold : ℚ) :
    add_categorical_distribution_drifts df threshold
      = (df.filter (fun c => is_numeric_dtype c.dtype)).map
          (fun c => .klDivergenceLessThan c.name (value_counts c) threshold) := by
  induction df with
  | nil => rfl
  | cons c rest ih =>
    cases hb : is_numeric_dtype c.dtype with
    | true => simp [add_categorical_distribution_drifts, List.filter_cons, hb, ih]
    | false => simp [add_categorical_distribution_drifts, List.filter_cons, hb, ih]

/-- C1 fails on the code two ways, shown at the unit-test fixture (the
`value` column has mean 121/6 ≈ 20.17): `get_range` clamps the upper mean
bound to 1 instead of mean + 0.1 (the repo unit test expects the unclamped
121/6 + 1/10), and the `dtype == 'number'` guard never fires, so no mean/std
expectation is emitted at all. -/
theorem C1_mean_std_bounds_bug :
    seriesMean sampleValueColumn.qvals = .val (121/6)
      ∧ get_range (.val (121/6)) (.val (1/10)) = (.val (301/15), .val 1)
      ∧ PyFloat.val 1 ≠ .val (121/6 + 1/10)
      ∧ add_numerical_distribution_drifts sampleDf (1/10) = [] := by
  refine ⟨?_, by rw [get_range_val]; norm_num, by norm_num,
    add_numerical_distribution_drifts_eq_nil _ _⟩
  show seriesMean sampleValueColumn.qvals = _
  norm_num [seriesMean, sampleValueColumn, Column.qvals, Value.asNum,
    List.filterMap_cons]

/-- C2 fails on the code: the unit-test fixture has exactly two
numeric-dtyped columns, yet `add_numerical_distribution_drifts` emits zero
expectations (the repo unit test expects four), because
`dtype == 'number'` is never true. -/
theorem C2_numeric_rule_count_bug :
    (sampleDf.countP (fun c => is_numeric_dtype c.dtype)) = 2
      ∧ add_numerical_distribution_drifts sampleDf (1/10) = []
      ∧ (add_numerical_distribution_drifts sampleDf (1/10)).length ≠ 2 * 2 := by
  refine ⟨by rfl, add_numerical_distribution_drifts_eq_nil _ _, ?_⟩
  rw [add_numerical_distribution_drifts_eq_nil]
  norm_num

/-- C10 fails on the code, shown at a reference frame with one int64 column
[1, 2, 3]: the pipeline builds exactly the column-set expectation, one type
expectation and one non-null-ratio expectation with tolerance 0.1 — and
nothing else.  No mean/std expectation appears for the numeric column
(the `dtype == 'number'` guard never fires), and indeed no KL-divergence and
no like-pattern expectation is ever present. -/
theorem C10_pipeline_rule_set_bug :
    is_numeric_dtype Dtype.int64 = true
      ∧ buildExpectations c10Df
          = [.columnsToMatchSet ({"id"} : Finset String),
             .valuesToBeOfType "id" "int64",
             .proportionNonNullBetween "id" (.val (9/10)) (.val 1)] := by
  constructor
  · rfl
  · unfold buildExpectations
    rw [add_numerical_distribution_drifts_eq_nil, List.append_nil]
    norm_num [add_column_changes, add_column_type_changes, add_null_value_drifts,
      columnSet, c10Df, reference_non_null_proportion, nullCount, rowCount,
      Dtype.name, get_range_val]
